import Mathlib

/-!
Verification of the DevTools proxy (`devtools-proxy.py`) against its
natural-language specification.

The file shallowly embeds the parts of the source the claims are about:

* the id codec `encode_id_raw` / `decode_id_raw` (source lines 25-41),
  with the parameters `max_request_id = 2 ^ (31 - B) - 1` fixed by `main`
  (source lines 275-277);
* the client attachment / read-loop state transitions of
  `ws_client_handler` (source lines 65-110);
* the upstream reader dispatch of `ws_browser_handler`
  (source lines 131-149);
* the `/json` and `/json/list` tab-rewriting step of `proxy_handler`
  (source lines 160-180), including the regex substitution built at
  source line 290.

Python machine-level details are made explicit: `raise OverflowError`
becomes an `Option` result, Python ints are `Nat` (all quantities involved
are non-negative), the `app` dict becomes an explicit state record, and
`print` calls that the spec mentions become an explicit log list.
-/

/-! ## Id codec (source lines 25-41) -/

/-- Source line 25: `BITS = 31`. -/
def BITS : Nat := 31

/-- Source lines 28-34.  `raise OverflowError` is modelled as `none`.
All arguments are non-negative in every reachable call, so `Nat` is
faithful to the Python ints. -/
def encode_id_raw (client_id request_id max_request_id bits_for_client_id : Nat) :
    Option Nat :=
  if request_id > max_request_id then
    none
  else
    some ((client_id <<< (BITS - bits_for_client_id)) ||| request_id)

/-- Source lines 37-41. -/
def decode_id_raw (encoded_id max_request_id bits_for_client_id : Nat) : Nat × Nat :=
  (encoded_id >>> (BITS - bits_for_client_id), encoded_id &&& max_request_id)

/-- Source line 277: `max_request_id = 2 ** (BITS - bits_for_client_id) - 1`. -/
def max_request_id_of (bits_for_client_id : Nat) : Nat :=
  2 ^ (BITS - bits_for_client_id) - 1

theorem shiftLeft_or_eq_add {r k : Nat} (c : Nat) (hr : r < 2 ^ k) :
    c <<< k ||| r = c * 2 ^ k + r := by
  rw [Nat.shiftLeft_eq, Nat.mul_comm c (2 ^ k), ← Nat.mul_add_lt_is_or hr c]

/-! ## Claims C1, C2, C9, C10 — the id codec -/

/-- Claim C1: for every pair `(c, r)` with `c < 2 ^ B` and `r < 2 ^ (31 - B)`,
decoding the encoding returns the pair unchanged, with
`max_request_id = 2 ^ (31 - B) - 1`.  The hypothesis `B ≤ 31` records the
domain on which the Python expression `31 - B` agrees with truncated `Nat`
subtraction (in `main`, `B = ceil(log2(max_clients))` is far below 31). -/
theorem claim_C1_decode_encode_roundtrip (B c r : Nat) (hB : B ≤ 31)
    (hc : c < 2 ^ B) (hr : r < 2 ^ (31 - B)) :
    (encode_id_raw c r (max_request_id_of B) B).map
      (fun e => decode_id_raw e (max_request_id_of B) B) = some (c, r) := by
  have hk : BITS - B = 31 - B := rfl
  have hguard : ¬ r > max_request_id_of B := by
    unfold max_request_id_of
    rw [hk]
    omega
  unfold encode_id_raw
  rw [if_neg hguard, Option.map_some']
  unfold decode_id_raw max_request_id_of
  rw [hk, shiftLeft_or_eq_add c hr, Nat.and_pow_two_sub_one_eq_mod,
    Nat.shiftRight_eq_div_pow]
  have hdiv : (c * 2 ^ (31 - B) + r) / 2 ^ (31 - B) = c := by
    rw [Nat.mul_comm c (2 ^ (31 - B)),
      Nat.mul_add_div (Nat.pos_pow_of_pos (31 - B) (by decide)),
      Nat.div_eq_of_lt hr, Nat.add_zero]
  have hmod : (c * 2 ^ (31 - B) + r) % 2 ^ (31 - B) = r := by
    rw [Nat.mul_comm c (2 ^ (31 - B)), Nat.mul_add_mod, Nat.mod_eq_of_lt hr]
  rw [hdiv, hmod]

/-- Witness for C1 at `B = 2`, `c = 3`, `r = 5`. -/
theorem claim_C1_witness :
    2 ≤ 31 ∧ 3 < 2 ^ 2 ∧ 5 < 2 ^ (31 - 2) ∧
      (encode_id_raw 3 5 (max_request_id_of 2) 2).map
        (fun e => decode_id_raw e (max_request_id_of 2) 2) = some (3, 5) :=
  ⟨by decide, by decide, by decide,
    claim_C1_decode_encode_roundtrip 2 3 5 (by decide) (by decide) (by decide)⟩

/-- Claim C2: with `max_request_id = 2 ^ (31 - B) - 1` as fixed by `main`,
`encode_id_raw` raises `OverflowError` (returns `none`) iff
`r ≥ 2 ^ (31 - B)`, for every `c`.  `B ≤ 31` as in C1. -/
theorem claim_C2_overflow_iff (B c r : Nat) (hB : B ≤ 31) :
    encode_id_raw c r (max_request_id_of B) B = none ↔ 2 ^ (31 - B) ≤ r := by
  have hpos : 0 < 2 ^ (31 - B) := Nat.pos_pow_of_pos (31 - B) (by decide)
  have hk : max_request_id_of B = 2 ^ (31 - B) - 1 := rfl
  unfold encode_id_raw
  by_cases h : r > max_request_id_of B
  · rw [if_pos h]
    rw [hk] at h
    constructor
    · intro _
      omega
    · intro _
      rfl
  · rw [if_neg h]
    rw [hk] at h
    constructor
    · intro hcontr
      exact absurd hcontr (by simp)
    · intro hge
      omega

/-- Witness for C2 at `B = 1`, `c = 1`, boundary request ids `2 ^ 30` and
`2 ^ 30 - 1`. -/
theorem claim_C2_witness :
    1 ≤ 31 ∧
      (encode_id_raw 1 (2 ^ 30) (max_request_id_of 1) 1 = none ↔
        2 ^ (31 - 1) ≤ 2 ^ 30) :=
  ⟨by decide, claim_C2_overflow_iff 1 1 (2 ^ 30) (by decide)⟩

/-- Claim C9: every successfully encoded id is strictly below `2 ^ 31`
(so it stays a safe non-negative integer for any JSON number encoding). -/
theorem claim_C9_encoded_lt (B c r e : Nat) (hB : B ≤ 31) (hc : c < 2 ^ B)
    (hr : r ≤ max_request_id_of B)
    (he : encode_id_raw c r (max_request_id_of B) B = some e) :
    e < 2 ^ 31 := by
  have hk : max_request_id_of B = 2 ^ (31 - B) - 1 := rfl
  have hpos : 0 < 2 ^ (31 - B) := Nat.pos_pow_of_pos (31 - B) (by decide)
  have hrlt : r < 2 ^ (31 - B) := by
    rw [hk] at hr
    omega
  have hval : e = c <<< (31 - B) ||| r := by
    unfold encode_id_raw at he
    rw [if_neg (by omega)] at he
    exact (Option.some.injEq _ _).mp he.symm
  have hsum : c * 2 ^ (31 - B) + r < 2 ^ 31 := by
    have h1 : c * 2 ^ (31 - B) + r < (c + 1) * 2 ^ (31 - B) := by
      rw [Nat.succ_mul]
      omega
    have h2 : (c + 1) * 2 ^ (31 - B) ≤ 2 ^ B * 2 ^ (31 - B) :=
      Nat.mul_le_mul_right _ (Nat.succ_le_of_lt hc)
    have h3 : 2 ^ B * 2 ^ (31 - B) = 2 ^ 31 := by
      rw [← Nat.pow_add]
      congr 1
      omega
    omega
  rw [hval, shiftLeft_or_eq_add c hrlt]
  exact hsum

/-- Witness for C9 at `B = 2`, `c = 3`, `r = 5`. -/
theorem claim_C9_witness :
    2 ≤ 31 ∧ 3 < 2 ^ 2 ∧ 5 ≤ max_request_id_of 2 ∧
      (3 <<< (BITS - 2) ||| 5) < 2 ^ 31 :=
  ⟨by decide, by decide, by decide,
    claim_C9_encoded_lt 2 3 5 (3 <<< (BITS - 2) ||| 5) (by decide) (by decide)
      (by decide) rfl⟩

/-- Claim C10: for every 31-bit value `e`, decoding never fails, yields a
`request_id` within `max_request_id`, and re-encoding the decoded pair
reproduces `e` exactly. -/
theorem claim_C10_encode_decode_roundtrip (B e : Nat) (hB : B ≤ 31)
    (he : e < 2 ^ 31) :
    encode_id_raw (decode_id_raw e (max_request_id_of B) B).1
        (decode_id_raw e (max_request_id_of B) B).2 (max_request_id_of B) B
      = some e
    ∧ (decode_id_raw e (max_request_id_of B) B).2 ≤ max_request_id_of B := by
  have hk : BITS - B = 31 - B := rfl
  have hpos : 0 < 2 ^ (31 - B) := Nat.pos_pow_of_pos (31 - B) (by decide)
  have hsnd : (decode_id_raw e (max_request_id_of B) B).2 = e % 2 ^ (31 - B) := by
    unfold decode_id_raw max_request_id_of
    rw [hk, Nat.and_pow_two_sub_one_eq_mod]
  have hfst : (decode_id_raw e (max_request_id_of B) B).1 = e / 2 ^ (31 - B) := by
    unfold decode_id_raw
    rw [hk, Nat.shiftRight_eq_div_pow]
  have hmodlt : e % 2 ^ (31 - B) < 2 ^ (31 - B) := Nat.mod_lt e hpos
  have hle : (decode_id_raw e (max_request_id_of B) B).2 ≤ max_request_id_of B := by
    rw [hsnd]
    unfold max_request_id_of
    rw [hk]
    omega
  refine ⟨?_, hle⟩
  unfold encode_id_raw
  rw [if_neg (by omega)]
  rw [hfst, hsnd, hk, shiftLeft_or_eq_add _ hmodlt, Nat.mul_comm,
    Nat.div_add_mod e (2 ^ (31 - B))]

/-- Witness for C10 at `B = 2`, `e = 1610612741` (= `3 <<< 29 ||| 5`). -/
theorem claim_C10_witness :
    2 ≤ 31 ∧ 1610612741 < 2 ^ 31 ∧
      (encode_id_raw (decode_id_raw 1610612741 (max_request_id_of 2) 2).1
          (decode_id_raw 1610612741 (max_request_id_of 2) 2).2
          (max_request_id_of 2) 2 = some 1610612741
        ∧ (decode_id_raw 1610612741 (max_request_id_of 2) 2).2 ≤
            max_request_id_of 2) :=
  ⟨by decide, by decide,
    claim_C10_encode_decode_roundtrip 2 1610612741 (by decide) (by decide)⟩

/-! ## Broker state model (source lines 65-149)

`app['clients']` is a single process-wide Python dict keyed by the client
WebSocket object, with values `{'id': client_id, 'tab_id': tab_id}`; a dict
preserves insertion order and the source never deletes an entry, so it is
modelled as a list in insertion order.  The socket object is modelled by a
numeric token together with its `closed` flag. -/

/-- One entry of `app['clients']`: the key (socket) and the stored record. -/
structure ProxyClient where
  sock : Nat
  cid : Nat
  tabId : String
  closed : Bool
deriving DecidableEq, Repr

/-- The mutable state the claims are about: `app['clients']` and
`app['max_clients']` (the latter is `2 ** bits_for_client_id`, source
line 276, and never changes after startup). -/
structure AppState where
  clients : List ProxyClient
  maxClients : Nat
deriving DecidableEq, Repr

/-- The clients of one page's broker: the sub-dict of `app['clients']`
whose entries carry this `tab_id` (the comprehension at source line 135). -/
def brokerClients (st : AppState) (tabId : String) : List ProxyClient :=
  st.clients.filter (fun c => c.tabId == tabId)

/-- The `"[CLIENT %d]"` log marker (source line 72). -/
def logTag (client_id : Nat) : String :=
  "[CLIENT " ++ toString client_id ++ "]"

/-- A successfully parsed downstream JSON object: its numeric `id` and the
rest of the object, carried opaquely (source lines 102-104). -/
structure DownMsg where
  id : Nat
  rest : String
deriving DecidableEq, Repr

/-- One frame arriving on a client socket.  `text none` stands for a text
frame on which `msg.json(...)` or the `data['id']` access raises (malformed
JSON or a missing / non-numeric id); `nonText` is any other frame type,
which the loop at source line 98 skips. -/
inductive DownFrame where
  | text (parsed : Option DownMsg)
  | nonText
deriving DecidableEq, Repr

/-- How the per-client read loop (source lines 97-110) ends. -/
inductive LoopEnd where
  | disconnected
  | reconnected
  | raised
deriving DecidableEq, Repr

/-- The per-client read loop, source lines 97-110: for each text frame,
first check the upstream socket (break with RECONNECTED when closed), then
parse, encode the id — `OverflowError` from `encode_id_raw` or a parse
error propagates and kills the handler (`raised`) — and forward the
re-encoded message upstream.  Returns the forwarded frames and how the
loop ended. -/
def clientLoop (client_id m B : Nat) (upstreamClosed : Bool) :
    List DownFrame → List (Nat × String) × LoopEnd
  | [] => ([], LoopEnd.disconnected)
  | DownFrame.nonText :: rest => clientLoop client_id m B upstreamClosed rest
  | DownFrame.text p :: rest =>
    if upstreamClosed then
      ([], LoopEnd.reconnected)
    else
      match p with
      | none => ([], LoopEnd.raised)
      | some msg =>
        match encode_id_raw client_id msg.id m B with
        | none => ([], LoopEnd.raised)
        | some eid =>
          let out := clientLoop client_id m B upstreamClosed rest
          ((eid, msg.rest) :: out.1, out.2)

/-- Outcome of the attach step of `ws_client_handler`. -/
inductive AttachResult where
  | refused
  | connected (client_id : Nat)
deriving DecidableEq, Repr

/-- Everything observable from one run of `ws_client_handler`. -/
structure SessionOut where
  result : AttachResult
  logs : List String
  upSends : List (Nat × String)
  state : AppState
deriving DecidableEq, Repr

/-- The per-client log lines after the read loop (source lines 100, 109). -/
def endLogs (client_id : Nat) : LoopEnd → List String
  | LoopEnd.disconnected => [logTag client_id ++ " DISCONNECTED"]
  | LoopEnd.reconnected => [logTag client_id ++ " RECONNECTED"]
  | LoopEnd.raised => []

/-- Model of `ws_client_handler`, source lines 65-110, as a state transition.
`client_id = len(app['clients'])` (line 71) counts the whole process-wide
dict; the capacity check (line 77) compares it with `app['max_clients']`
and on refusal logs CONNECTION FAILED and returns without registering and
without exchanging any frame.  Otherwise the client is registered (line
81) before the upstream dial; a dial failure (`dialFails`) logs
CONNECTION ERROR and returns with the client still registered; otherwise
the read loop runs.  No path removes an entry from `app['clients']`. -/
def ws_client_session (st : AppState) (sock : Nat) (tabId : String)
    (dialFails upstreamClosed : Bool) (m B : Nat) (frames : List DownFrame) :
    SessionOut :=
  let client_id := st.clients.length
  if st.maxClients ≤ client_id then
    ⟨AttachResult.refused, [logTag client_id ++ " CONNECTION FAILED"], [], st⟩
  else
    let st' : AppState :=
      ⟨st.clients ++ [⟨sock, client_id, tabId, false⟩], st.maxClients⟩
    if dialFails then
      ⟨AttachResult.connected client_id,
       [logTag client_id ++ " CONNECTED",
        logTag client_id ++ (" CONNECTION ERROR: " ++ tabId)], [], st'⟩
    else
      let out := clientLoop client_id m B upstreamClosed frames
      ⟨AttachResult.connected client_id,
       [logTag client_id ++ " CONNECTED"] ++ endLogs client_id out.2,
       out.1, st'⟩

/-- One upstream text frame as seen by `ws_browser_handler`: either a JSON
object with a numeric `id` (a reply) or one without (an event), the rest
carried opaquely.  `raw` is the verbatim frame text `msg.data`. -/
inductive UpMsg where
  | withId (encodedId : Nat) (rest : String)
  | noId (raw : String)
deriving DecidableEq, Repr

/-- What `ws_browser_handler` does with one upstream text frame. -/
inductive BrowserAction where
  | fanout (sends : List (Nat × String))
  | reply (sock requestId : Nat) (rest : String)
  | raisedStopIteration
deriving DecidableEq, Repr

/-- The dispatch of `ws_browser_handler` for one upstream text frame,
source lines 131-146.  An event (no id) is sent verbatim to every
not-closed client whose `tab_id` matches (lines 134-140).  A reply is
decoded and sent, with `id` replaced by the decoded request id, to the
first client in `app['clients']` (across ALL tabs) whose stored id equals
the decoded client id (lines 141-146); when no entry matches, the bare
`next(...)` raises StopIteration. -/
def ws_browser_step (st : AppState) (tabId : String) (m B : Nat) :
    UpMsg → BrowserAction
  | UpMsg.noId raw =>
    let tabClients := st.clients.filter (fun c => c.tabId == tabId)
    BrowserAction.fanout
      ((tabClients.filter (fun c => !c.closed)).map (fun c => (c.sock, raw)))
  | UpMsg.withId e rest =>
    let dec := decode_id_raw e m B
    match st.clients.find? (fun c => c.cid == dec.1) with
    | none => BrowserAction.raisedStopIteration
    | some c => BrowserAction.reply c.sock dec.2 rest

/-! ## Claim C4 — capacity refusal -/

/-- Claim C4: if a broker's client set already has `max_clients` members,
an attach for that tab is refused after the handshake: CONNECTION FAILED
is logged, nothing is sent, and the state is unchanged (the client is not
registered).  The source compares `len(app['clients'])` — the process-wide
count, which is at least the broker's count — with `max_clients`, so a
full broker always refuses. -/
theorem claim_C4_capacity_refusal (st : AppState) (sock : Nat) (tabId : String)
    (dialFails upstreamClosed : Bool) (m B : Nat) (frames : List DownFrame)
    (h : (brokerClients st tabId).length = st.maxClients) :
    ws_client_session st sock tabId dialFails upstreamClosed m B frames =
      ⟨AttachResult.refused,
       [logTag st.clients.length ++ " CONNECTION FAILED"], [], st⟩ := by
  have hle : (brokerClients st tabId).length ≤ st.clients.length := by
    unfold brokerClients
    exact List.length_filter_le _ _
  unfold ws_client_session
  rw [if_pos (by omega)]

/-- Witness for C4: two clients already attached to tab A with
`max_clients = 2`; a third attach on A is refused and changes nothing. -/
theorem claim_C4_witness :
    (brokerClients ⟨[⟨1, 0, "A", false⟩, ⟨2, 1, "A", false⟩], 2⟩ "A").length = 2 ∧
      ws_client_session ⟨[⟨1, 0, "A", false⟩, ⟨2, 1, "A", false⟩], 2⟩ 3 "A"
          false false 0 0 [] =
        ⟨AttachResult.refused, [logTag 2 ++ " CONNECTION FAILED"], [],
         ⟨[⟨1, 0, "A", false⟩, ⟨2, 1, "A", false⟩], 2⟩⟩ :=
  ⟨by decide,
    claim_C4_capacity_refusal ⟨[⟨1, 0, "A", false⟩, ⟨2, 1, "A", false⟩], 2⟩ 3 "A"
      false false 0 0 [] (by decide)⟩

/-! ## Claim C5 — client id allocation -/

/-- Counterexample to C5 as stated: with one client already attached to tab
B, an attach on tab A is allocated `client_id = 1`, although tab A's broker
client set is empty — the id equals the size of the process-wide client
dict, not of that broker's set, so allocation is not independent of
activity on other pages' brokers. -/
theorem claim_C5_counterexample :
    (ws_client_session ⟨[⟨1, 0, "B", false⟩], 2⟩ 2 "A" false false 0 0 []).result
        = AttachResult.connected 1
      ∧ brokerClients ⟨[⟨1, 0, "B", false⟩], 2⟩ "A" = [] := by
  exact ⟨rfl, rfl⟩

/-- Sequential attaches to one tab, each with a fresh socket and an
immediately closing client (empty frame list): the composition of
`ws_client_handler` runs the claims reason about. -/
def attachAll (tabId : String) : AppState → List Nat → List AttachResult × AppState
  | st, [] => ([], st)
  | st, sock :: socks =>
    let out := ws_client_session st sock tabId false false 0 0 []
    let rest := attachAll tabId out.state socks
    (out.result :: rest.1, rest.2)

theorem attachAll_ids (tabId : String) (socks : List Nat) (st : AppState)
    (h : st.clients.length + socks.length ≤ st.maxClients) :
    (attachAll tabId st socks).1 =
        (List.range' st.clients.length socks.length).map AttachResult.connected
      ∧ (attachAll tabId st socks).2.clients.map (fun c => c.cid) =
          st.clients.map (fun c => c.cid) ++
            List.range' st.clients.length socks.length := by
  induction socks generalizing st with
  | nil =>
    simp [attachAll]
  | cons sock socks ih =>
    have hlt : ¬ st.maxClients ≤ st.clients.length := by
      simp only [List.length_cons] at h
      omega
    have hsess : ws_client_session st sock tabId false false 0 0 [] =
        ⟨AttachResult.connected st.clients.length,
         [logTag st.clients.length ++ " CONNECTED"] ++
           endLogs st.clients.length LoopEnd.disconnected,
         [], ⟨st.clients ++ [⟨sock, st.clients.length, tabId, false⟩], st.maxClients⟩⟩ := by
      unfold ws_client_session
      rw [if_neg hlt]
      rfl
    have hlen : (st.clients ++ [(⟨sock, st.clients.length, tabId, false⟩ : ProxyClient)]).length
        = st.clients.length + 1 := by
      simp
    have hih := ih ⟨st.clients ++ [⟨sock, st.clients.length, tabId, false⟩], st.maxClients⟩
      (by simp only [hlen]; simp only [List.length_cons] at h; omega)
    unfold attachAll
    rw [hsess]
    dsimp only
    constructor
    · rw [hih.1]
      simp [hlen, List.range'_succ]
    · rw [hih.2]
      simp [hlen, List.range'_succ]

/-- Claim C5, amended: `client_id` is allocated as the size of the
process-wide client dict at attach time, so (first conjunct) any attach
below capacity is issued `client_id = len(app['clients'])`; consequently
(second conjunct) attaching `K ≤ max_clients` clients to a single broker
of a fresh proxy — no clients registered anywhere — issues exactly the ids
`0, 1, …, K−1`.  Activity on other pages' brokers shifts the ids (see the
counterexample). -/
theorem claim_C5_amended :
    (∀ (st : AppState) (sock : Nat) (tabId : String)
        (dialFails upstreamClosed : Bool) (m B : Nat) (frames : List DownFrame),
        st.clients.length < st.maxClients →
        (ws_client_session st sock tabId dialFails upstreamClosed m B frames).result
          = AttachResult.connected st.clients.length)
    ∧ ∀ (tabId : String) (socks : List Nat) (M : Nat), socks.length ≤ M →
        (attachAll tabId ⟨[], M⟩ socks).1 =
            (List.range socks.length).map AttachResult.connected
          ∧ (attachAll tabId ⟨[], M⟩ socks).2.clients.map (fun c => c.cid) =
              List.range socks.length := by
  constructor
  · intro st sock tabId dialFails upstreamClosed m B frames hcap
    unfold ws_client_session
    rw [if_neg (by omega)]
    cases dialFails with
    | true => rfl
    | false => rfl
  · intro tabId socks M hM
    have h := attachAll_ids tabId socks ⟨[], M⟩ (by simpa using hM)
    rw [List.range_eq_range']
    simpa using h

/-- Witness for C5 (amended): attaching three clients to tab A on a fresh
proxy with `max_clients = 4` issues ids 0, 1, 2. -/
theorem claim_C5_witness :
    (3 : Nat) ≤ 4 ∧
      ((attachAll "A" ⟨[], 4⟩ [10, 11, 12]).1 =
          (List.range 3).map AttachResult.connected
        ∧ (attachAll "A" ⟨[], 4⟩ [10, 11, 12]).2.clients.map (fun c => c.cid) =
            List.range 3) :=
  ⟨by decide, claim_C5_amended.2 "A" [10, 11, 12] 4 (by decide)⟩

/-! ## Claim C7 — client removal on read-loop termination -/

/-- Counterexample to C7 as stated: a client attaches to tab A on a fresh
proxy and its socket closes at once, so the read loop terminates
(DISCONNECTED is logged) — yet the client is still registered in
`app['clients']`; no statement in the source ever removes an entry. -/
theorem claim_C7_counterexample :
    (ws_client_session ⟨[], 2⟩ 7 "A" false false 0 0 []).logs =
        [logTag 0 ++ " CONNECTED", logTag 0 ++ " DISCONNECTED"]
      ∧ (ws_client_session ⟨[], 2⟩ 7 "A" false false 0 0 []).state.clients =
          [⟨7, 0, "A", false⟩] :=
  ⟨rfl, rfl⟩

/-- The invariant the process-wide dict actually satisfies: the stored ids
are exactly `0, 1, …, len − 1` in insertion order (a fresh proxy starts
with the empty dict, and each registration appends the current length). -/
def idsOk (st : AppState) : Prop :=
  st.clients.map (fun c => c.cid) = List.range st.clients.length

/-- Claim C7, amended: when a client's read loop terminates (socket close,
JSON parse error, or break on a closed upstream) the client is NOT removed
from the client set — no path of `ws_client_handler` deletes an entry, the
whole session only ever appends — and consequently its `client_id` is
never recycled while the process lives: the stored ids stay exactly
`0, …, len − 1`, pairwise distinct. -/
theorem claim_C7_amended (st : AppState) (sock : Nat) (tabId : String)
    (dialFails upstreamClosed : Bool) (m B : Nat) (frames : List DownFrame)
    (h : idsOk st) :
    (∃ tl, (ws_client_session st sock tabId dialFails upstreamClosed m B
        frames).state.clients = st.clients ++ tl)
    ∧ idsOk (ws_client_session st sock tabId dialFails upstreamClosed m B
        frames).state
    ∧ ((ws_client_session st sock tabId dialFails upstreamClosed m B
        frames).state.clients.map (fun c => c.cid)).Nodup := by
  by_cases hcap : st.maxClients ≤ st.clients.length
  · have hout : (ws_client_session st sock tabId dialFails upstreamClosed m B
        frames).state = st := by
      unfold ws_client_session
      rw [if_pos hcap]
    refine ⟨⟨[], by rw [hout, List.append_nil]⟩, by rw [hout]; exact h, ?_⟩
    rw [hout]
    unfold idsOk at h
    rw [h]
    exact List.nodup_range _
  · have hout : (ws_client_session st sock tabId dialFails upstreamClosed m B
        frames).state =
        ⟨st.clients ++ [⟨sock, st.clients.length, tabId, false⟩], st.maxClients⟩ := by
      unfold ws_client_session
      rw [if_neg hcap]
      cases dialFails with
      | true => rfl
      | false => rfl
    have hmap : (st.clients ++
        [(⟨sock, st.clients.length, tabId, false⟩ : ProxyClient)]).map
          (fun c => c.cid) = List.range (st.clients.length + 1) := by
      rw [List.map_append]
      unfold idsOk at h
      rw [h, List.range_succ]
      rfl
    refine ⟨⟨[⟨sock, st.clients.length, tabId, false⟩], by rw [hout]⟩, ?_, ?_⟩
    · unfold idsOk
      rw [hout]
      dsimp only
      rw [hmap]
      congr 1
      simp
    · rw [hout]
      dsimp only
      rw [hmap]
      exact List.nodup_range _

/-- Witness for C7 (amended), on a state with two registered clients. -/
theorem claim_C7_witness :
    idsOk ⟨[⟨1, 0, "A", false⟩, ⟨2, 1, "B", false⟩], 4⟩ ∧
      ((∃ tl, (ws_client_session ⟨[⟨1, 0, "A", false⟩, ⟨2, 1, "B", false⟩], 4⟩
            9 "A" false false 0 0 []).state.clients =
          [⟨1, 0, "A", false⟩, ⟨2, 1, "B", false⟩] ++ tl)
        ∧ idsOk (ws_client_session ⟨[⟨1, 0, "A", false⟩, ⟨2, 1, "B", false⟩], 4⟩
            9 "A" false false 0 0 []).state
        ∧ ((ws_client_session ⟨[⟨1, 0, "A", false⟩, ⟨2, 1, "B", false⟩], 4⟩
            9 "A" false false 0 0 []).state.clients.map (fun c => c.cid)).Nodup) :=
  ⟨rfl,
    claim_C7_amended ⟨[⟨1, 0, "A", false⟩, ⟨2, 1, "B", false⟩], 4⟩ 9 "A"
      false false 0 0 [] rfl⟩

/-! ## Claim C3 — reply routing -/

/-- Counterexample to C3 as stated: an upstream reply whose decoded client
id matches no registered client does not disappear silently — the bare
`next(...)` at source line 145 raises StopIteration (shown by the
distinguished result), killing the upstream reader task. -/
theorem claim_C3_counterexample :
    (⟨[], 2⟩ : AppState).clients = [] ∧
      ws_browser_step ⟨[], 2⟩ "A" (max_request_id_of 1) 1 (UpMsg.withId 5 "r") =
        BrowserAction.raisedStopIteration :=
  ⟨rfl, rfl⟩

theorem find?_cid (l : List ProxyClient) (k : Nat) (c : ProxyClient)
    (hmem : c ∈ l) (hc : c.cid = k) (hnd : (l.map (fun c => c.cid)).Nodup) :
    l.find? (fun x => x.cid == k) = some c := by
  induction l with
  | nil => cases hmem
  | cons a l ih =>
    rw [List.map_cons, List.nodup_cons] at hnd
    by_cases hak : a.cid = k
    · rw [List.find?_cons_of_pos _ (by simpa using hak)]
      rcases List.mem_cons.mp hmem with heq | hmem'
      · rw [heq]
      · exact absurd (hak ▸ hc ▸ List.mem_map_of_mem (fun c => c.cid) hmem')
          hnd.1
    · rw [List.find?_cons_of_neg _ (by simpa using hak)]
      rcases List.mem_cons.mp hmem with heq | hmem'
      · exact absurd (heq ▸ hc) hak
      · exact ih hmem' hnd.2

/-- Claim C3, amended: for an upstream text frame with a numeric `id`, the
handler decodes it into `(client_id, request_id)` and (second conjunct)
delivers the message, with `id` replaced by `request_id`, to exactly the
one registered client whose stored id equals `client_id` (ids of live
registrations are pairwise distinct); but (first conjunct) when no such
client exists the lookup raises StopIteration — terminating the upstream
reader task — rather than dropping the reply silently.  No state changes
in either case. -/
theorem claim_C3_amended (st : AppState) (tabId : String) (m B e : Nat)
    (rest : String) :
    ((∀ c ∈ st.clients, c.cid ≠ (decode_id_raw e m B).1) →
        ws_browser_step st tabId m B (UpMsg.withId e rest) =
          BrowserAction.raisedStopIteration)
    ∧ ∀ c ∈ st.clients, c.cid = (decode_id_raw e m B).1 →
        (st.clients.map (fun c => c.cid)).Nodup →
        ws_browser_step st tabId m B (UpMsg.withId e rest) =
          BrowserAction.reply c.sock (decode_id_raw e m B).2 rest := by
  constructor
  · intro hnone
    have hfind : st.clients.find? (fun c => c.cid == (decode_id_raw e m B).1)
        = none :=
      List.find?_eq_none.mpr (fun x hx => by simpa using hnone x hx)
    simp only [ws_browser_step]
    rw [hfind]
  · intro c hmem hc hnd
    have hfind := find?_cid st.clients (decode_id_raw e m B).1 c hmem hc hnd
    simp only [ws_browser_step]
    rw [hfind]

/-- Witness for C3 (amended): with clients 0 and 1 registered, the reply
encoded for client 1 with request id 7 (encoded id `(1 <<< 30) ||| 7`) is
delivered to client 1's socket with id 7. -/
theorem claim_C3_witness :
    (⟨11, 1, "A", false⟩ : ProxyClient) ∈
        (⟨[⟨10, 0, "A", false⟩, ⟨11, 1, "A", false⟩], 2⟩ : AppState).clients ∧
      (decode_id_raw 1073741831 (max_request_id_of 1) 1).2 = 7 ∧
      ws_browser_step ⟨[⟨10, 0, "A", false⟩, ⟨11, 1, "A", false⟩], 2⟩ "A"
          (max_request_id_of 1) 1 (UpMsg.withId 1073741831 "r") =
        BrowserAction.reply 11 (decode_id_raw 1073741831 (max_request_id_of 1) 1).2
          "r" :=
  ⟨by decide, by decide,
    (claim_C3_amended ⟨[⟨10, 0, "A", false⟩, ⟨11, 1, "A", false⟩], 2⟩ "A"
        (max_request_id_of 1) 1 1073741831 "r").2
      ⟨11, 1, "A", false⟩ (by decide) (by decide) (by decide)⟩

/-! ## Claim C6 — event fan-out -/

/-- Claim C6: an upstream text frame without an `id` is forwarded as the
verbatim frame text to exactly the registered clients of that page whose
socket is still open — each such client's socket receives the raw text,
no closed client and no client of another page receives anything, and
every payload sent is byte-identical to the upstream frame.  (Socket
tokens are pairwise distinct, as Python dict keys are.) -/
theorem claim_C6_event_fanout (st : AppState) (tabId : String) (m B : Nat)
    (raw : String) (sends : List (Nat × String))
    (hnd : (st.clients.map (fun c => c.sock)).Nodup)
    (hstep : ws_browser_step st tabId m B (UpMsg.noId raw) =
      BrowserAction.fanout sends) :
    (∀ c ∈ st.clients,
        ((c.sock, raw) ∈ sends ↔ (c.tabId = tabId ∧ c.closed = false)))
    ∧ ∀ p ∈ sends, p.2 = raw := by
  have hs : sends = ((st.clients.filter (fun c => c.tabId == tabId)).filter
      (fun c => !c.closed)).map (fun c => (c.sock, raw)) := by
    simp only [ws_browser_step] at hstep
    exact (BrowserAction.fanout.injEq _ _).mp hstep.symm
  subst hs
  constructor
  · intro c hmem
    constructor
    · intro hin
      rcases List.mem_map.mp hin with ⟨c', hc', heq⟩
      rcases List.mem_filter.mp hc' with ⟨hc'tab, hc'open⟩
      rcases List.mem_filter.mp hc'tab with ⟨hc'mem, hc'tabeq⟩
      have hsock : c'.sock = c.sock := congrArg Prod.fst heq
      have : c' = c := List.inj_on_of_nodup_map hnd hc'mem hmem hsock
      subst this
      exact ⟨by simpa using hc'tabeq, by simpa using hc'open⟩
    · intro hprop
      exact List.mem_map_of_mem _
        (List.mem_filter.mpr
          ⟨List.mem_filter.mpr ⟨hmem, by simp [hprop.1]⟩, by simp [hprop.2]⟩)
  · intro p hp
    rcases List.mem_map.mp hp with ⟨c', _, heq⟩
    rw [← heq]

/-- Witness for C6: clients 0 (tab A, open), 1 (tab B, open) and 2 (tab A,
closed); the event "EVT" on tab A reaches exactly socket 1. -/
theorem claim_C6_witness :
    (∀ c ∈ (⟨[⟨1, 0, "A", false⟩, ⟨2, 1, "B", false⟩, ⟨3, 2, "A", true⟩], 4⟩ :
        AppState).clients,
        ((c.sock, "EVT") ∈ [((1 : Nat), "EVT")] ↔
          (c.tabId = "A" ∧ c.closed = false)))
    ∧ ∀ p ∈ [((1 : Nat), "EVT")], p.2 = "EVT" :=
  claim_C6_event_fanout
    ⟨[⟨1, 0, "A", false⟩, ⟨2, 1, "B", false⟩, ⟨3, 2, "A", true⟩], 4⟩ "A" 0 0
    "EVT" [(1, "EVT")] (by decide) rfl

/-! ## The `/json` tab rewriting (source lines 160-180, 290)

`devtools_pattern = re.compile(r"(127\.0\.0\.1|localhost|%s):%d/" %
(chrome_host, chrome_port))` (source line 290).  The first two alternatives
have escaped dots (literal); `chrome_host` is interpolated raw, so a dot in
it is the regex wildcard.  Hostnames contain no other regex metacharacter,
so the pattern is modelled as three fixed-length alternatives — two
literal, one with wildcard dots — followed by the literal `:<port>/`.
`re.sub` scans left to right, tries the alternatives in order at each
position, and on a match emits the replacement and resumes after the
matched text.  Tab objects from `/json` are JSON objects with string
values; a Python dict keeps insertion order, with assignment to a fresh
key appending, so a tab is an association list. -/

/-- A `/json` tab object: keys and string values in insertion order. -/
abbrev Tab := List (String × String)

/-- Pattern fragment matched literally against a prefix of the text. -/
def litMatch : List Char → List Char → Bool
  | [], _ => true
  | _ :: _, [] => false
  | p :: ps, t :: ts => p == t && litMatch ps ts

/-- Pattern fragment from a raw (unescaped) interpolation: a dot matches
any single character. -/
def wildMatch : List Char → List Char → Bool
  | [], _ => true
  | _ :: _, [] => false
  | p :: ps, t :: ts => (p == '.' || p == t) && wildMatch ps ts

/-- One attempt of `devtools_pattern` at the head of `t`: alternatives in
the pattern's order, each followed by the `:<port>/` tail; returns the
length of the matched text. -/
def tryMatch (chromeHost suffix t : List Char) : Option Nat :=
  if litMatch ("127.0.0.1".data ++ suffix) t then
    some ("127.0.0.1".data ++ suffix).length
  else if litMatch ("localhost".data ++ suffix) t then
    some ("localhost".data ++ suffix).length
  else if wildMatch (chromeHost ++ suffix) t then
    some (chromeHost ++ suffix).length
  else
    none

/-- Model of `pattern.sub(repl, s)`: scan left to right, replace each
non-overlapping match, resume after the matched text.  Fuel-indexed; the
callers pass the text length, which suffices because every step consumes
at least one character of text or one unit of fuel. -/
def reSub (chromeHost suffix repl : List Char) : Nat → List Char → List Char
  | 0, _ => []
  | _ + 1, [] => []
  | fuel + 1, c :: cs =>
    match tryMatch chromeHost suffix (c :: cs) with
    | some n => repl ++ reSub chromeHost suffix repl fuel (List.drop n (c :: cs))
    | none => c :: reSub chromeHost suffix repl fuel cs

/-- Python's substring test `p in s`. -/
def hasSub (p : List Char) : List Char → Bool
  | [] => p.isEmpty
  | c :: cs => litMatch p (c :: cs) || hasSub p cs

/-- The configuration the rewrite depends on: `chrome_host` and
`chrome_port` (source lines 269-270). -/
structure Cfg where
  chromeHost : String
  chromePort : Nat
deriving DecidableEq, Repr

/-- The string `":%d/" % chrome_port` (source line 167), which is also the
tail of `devtools_pattern`. -/
def portTag (cfg : Cfg) : List Char :=
  (":" ++ toString cfg.chromePort ++ "/").data

/-- Model of `devtools_pattern.sub("%s:%s/" % (proxy_host, proxy_port), v)`
(source line 168). -/
def devtoolsSub (cfg : Cfg) (pH pP : String) (v : String) : String :=
  ⟨reSub cfg.chromeHost.data (portTag cfg) (pH ++ ":" ++ pP ++ "/").data
    v.data.length v.data⟩

/-- The per-value step of the loop at source lines 166-168: substitute
only when the value contains `":%d/" % chrome_port`. -/
def subValue (cfg : Cfg) (pH pP : String) (v : String) : String :=
  if hasSub (portTag cfg) v.data then devtoolsSub cfg pH pP v else v

/-- Lookup `tab.get(k)` on the association-list model of a dict. -/
def tabGet (k : String) : Tab → Option String
  | [] => none
  | kv :: rest => if kv.1 == k then some kv.2 else tabGet k rest

/-- Assignment `tab[k] = v` on the model: replace in place, or append a fresh key
(Python dicts keep insertion order). -/
def dictSet (k v : String) : Tab → Tab
  | [] => [(k, v)]
  | kv :: rest => if kv.1 == k then (k, v) :: rest else kv :: dictSet k v rest

/-- Source lines 170-178: read `tab['id']` (after the substitution loop),
then synthesize `webSocketDebuggerUrl` and `devtoolsFrontendUrl` when
absent; a tab without `id` is passed through (warned). -/
def synthTab (pH pP : String) (tab1 : Tab) : Tab :=
  match tabGet "id" tab1 with
  | none => tab1
  | some idv =>
    let url := pH ++ ":" ++ pP ++ "/devtools/page/" ++ idv
    let tab2 := if (tabGet "webSocketDebuggerUrl" tab1).isNone
      then dictSet "webSocketDebuggerUrl" ("ws://" ++ url) tab1 else tab1
    if (tabGet "devtoolsFrontendUrl" tab2).isNone
      then dictSet "devtoolsFrontendUrl" ("/devtools/inspector.html?ws=" ++ url) tab2
      else tab2

/-- The whole per-tab rewrite of source lines 165-178: substitute every
value containing the port tag, then synthesize the two URL fields.
`pH`/`pP` are the two halves of the client's Host header
(source line 164). -/
def rewriteTab (cfg : Cfg) (pH pP : String) (tab : Tab) : Tab :=
  synthTab pH pP (tab.map (fun kv => (kv.1, subValue cfg pH pP kv.2)))

/-- The `/json` rewriting step applied to the upstream tab array. -/
def rewriteTabs (cfg : Cfg) (pH pP : String) (tabs : List Tab) : List Tab :=
  tabs.map (rewriteTab cfg pH pP)

/-- Predicate: `devtools_pattern` matches nowhere in the text. -/
def matchFree (chromeHost suffix : List Char) : List Char → Bool
  | [] => true
  | c :: cs => (tryMatch chromeHost suffix (c :: cs)).isNone &&
      matchFree chromeHost suffix cs

/-- Counterexample to C8 as stated: with the default upstream config
(`127.0.0.1:12222`) and the client Host header `my127.0.0.1:12222`, the
replacement text itself ends in a match of `devtools_pattern`, so a second
application rewrites again (producing `mymy127.0.0.1:12222/...`): the
rewrite is not idempotent for every Host header. -/
theorem claim_C8_counterexample :
    rewriteTabs ⟨"127.0.0.1", 12222⟩ "my127.0.0.1" "12222"
        (rewriteTabs ⟨"127.0.0.1", 12222⟩ "my127.0.0.1" "12222"
          [[("id", "A"), ("url", "ws://127.0.0.1:12222/x")]])
      ≠ rewriteTabs ⟨"127.0.0.1", 12222⟩ "my127.0.0.1" "12222"
          [[("id", "A"), ("url", "ws://127.0.0.1:12222/x")]] := by
  decide

theorem reSub_eq_of_matchFree (ch sfx repl : List Char) :
    ∀ (s : List Char) (fuel : Nat), s.length ≤ fuel →
      matchFree ch sfx s = true → reSub ch sfx repl fuel s = s := by
  intro s
  induction s with
  | nil =>
    intro fuel _ _
    cases fuel with
    | zero => rfl
    | succ f => rfl
  | cons c cs ih =>
    intro fuel hlen hmf
    cases fuel with
    | zero =>
      exact absurd hlen (by simp)
    | succ f =>
      simp only [matchFree, Bool.and_eq_true] at hmf
      obtain ⟨h1, h2⟩ := hmf
      have h1' : tryMatch ch sfx (c :: cs) = none :=
        Option.isNone_iff_eq_none.mp h1
      have hlen' : cs.length ≤ f := by
        simp only [List.length_cons] at hlen
        omega
      unfold reSub
      rw [h1', ih f hlen' h2]

theorem subValue_eq_of_matchFree (cfg : Cfg) (pH pP : String) (v : String)
    (h : matchFree cfg.chromeHost.data (portTag cfg) v.data = true) :
    subValue cfg pH pP v = v := by
  unfold subValue
  by_cases hg : hasSub (portTag cfg) v.data = true
  · rw [if_pos hg]
    unfold devtoolsSub
    rw [reSub_eq_of_matchFree _ _ _ _ _ (Nat.le_refl _) h]
  · rw [if_neg hg]

theorem map_subValue_eq (cfg : Cfg) (pH pP : String) (t : Tab)
    (h : ∀ kv ∈ t, matchFree cfg.chromeHost.data (portTag cfg) kv.2.data = true) :
    t.map (fun kv => (kv.1, subValue cfg pH pP kv.2)) = t := by
  induction t with
  | nil => rfl
  | cons kv t ih =>
    have h1 := subValue_eq_of_matchFree cfg pH pP kv.2 (h kv (List.mem_cons_self _ _))
    rw [List.map_cons, h1, ih (fun x hx => h x (List.mem_cons_of_mem _ hx))]

theorem tabGet_dictSet_self (k v : String) (t : Tab) :
    tabGet k (dictSet k v t) = some v := by
  induction t with
  | nil => simp [dictSet, tabGet]
  | cons kv t ih =>
    by_cases h : kv.1 = k
    · simp [dictSet, tabGet, h]
    · simp [dictSet, tabGet, h, ih]

theorem tabGet_dictSet_ne (k k' v : String) (t : Tab) (h : k ≠ k') :
    tabGet k' (dictSet k v t) = tabGet k' t := by
  induction t with
  | nil => simp [dictSet, tabGet, h]
  | cons kv t ih =>
    by_cases hk : kv.1 = k
    · simp [dictSet, tabGet, hk, h, Ne.symm h]
    · by_cases hk' : kv.1 = k'
      · simp [dictSet, tabGet, hk, hk', Ne.symm h]
      · simp [dictSet, tabGet, hk, hk', ih]

theorem isSome_of_not_isNone {o : Option String} (h : o.isNone = false) :
    o.isSome = true := by
  cases o with
  | none => simp at h
  | some _ => rfl

theorem synthTab_id_of (pH pP : String) (t : Tab)
    (hsynth : tabGet "id" t = none ∨
      ((tabGet "webSocketDebuggerUrl" t).isSome ∧
        (tabGet "devtoolsFrontendUrl" t).isSome)) :
    synthTab pH pP t = t := by
  unfold synthTab
  cases hid : tabGet "id" t with
  | none => rfl
  | some idv =>
    rcases hsynth with hnone | ⟨hws, hdtf⟩
    · rw [hid] at hnone
      exact absurd hnone (Option.some_ne_none idv)
    · have hws' : (tabGet "webSocketDebuggerUrl" t).isNone = false := by
        rcases Option.isSome_iff_exists.mp hws with ⟨w, hw⟩
        rw [hw]
        rfl
      have hdtf' : (tabGet "devtoolsFrontendUrl" t).isNone = false := by
        rcases Option.isSome_iff_exists.mp hdtf with ⟨w, hw⟩
        rw [hw]
        rfl
      simp [hws', hdtf']

theorem if_isNone_none {α : Type} (a b : α) :
    (if (none : Option String).isNone = true then a else b) = a := rfl

theorem if_isNone_some {α : Type} (w : String) (a b : α) :
    (if (some w).isNone = true then a else b) = b := rfl

theorem synthTab_synth (pH pP : String) (t : Tab) :
    tabGet "id" (synthTab pH pP t) = none ∨
      ((tabGet "webSocketDebuggerUrl" (synthTab pH pP t)).isSome ∧
        (tabGet "devtoolsFrontendUrl" (synthTab pH pP t)).isSome) := by
  have hne : ("devtoolsFrontendUrl" : String) ≠ "webSocketDebuggerUrl" := by
    decide
  unfold synthTab
  cases hid : tabGet "id" t with
  | none =>
    left
    exact hid
  | some idv =>
    right
    dsimp only
    cases hws : tabGet "webSocketDebuggerUrl" t with
    | none =>
      rw [if_isNone_none]
      cases hdtf : tabGet "devtoolsFrontendUrl"
          (dictSet "webSocketDebuggerUrl"
            ("ws://" ++ (pH ++ ":" ++ pP ++ "/devtools/page/" ++ idv)) t) with
      | none =>
        rw [if_isNone_none]
        constructor
        · rw [tabGet_dictSet_ne _ _ _ _ hne, tabGet_dictSet_self]
          rfl
        · rw [tabGet_dictSet_self]
          rfl
      | some w =>
        rw [if_isNone_some]
        constructor
        · rw [tabGet_dictSet_self]
          rfl
        · rw [hdtf]
          rfl
    | some w0 =>
      rw [if_isNone_some]
      cases hdtf : tabGet "devtoolsFrontendUrl" t with
      | none =>
        rw [if_isNone_none]
        constructor
        · rw [tabGet_dictSet_ne _ _ _ _ hne, hws]
          rfl
        · rw [tabGet_dictSet_self]
          rfl
      | some w =>
        rw [if_isNone_some]
        exact ⟨by rw [hws]; rfl, by rw [hdtf]; rfl⟩

theorem map_fix {α : Type} (f : α → α) (l : List α) (h : ∀ x ∈ l, f x = x) :
    l.map f = l := by
  induction l with
  | nil => rfl
  | cons a l ih =>
    rw [List.map_cons, h a (List.mem_cons_self _ _),
      ih (fun x hx => h x (List.mem_cons_of_mem _ hx))]

/-- Claim C8, amended: the tab-rewriting step is idempotent on its own
output whenever the once-rewritten array no longer contains a match of
`devtools_pattern` in any value — in particular whenever the advertised
`proxy_host:proxy_port/` neither is nor completes a match of the pattern.
This is the intended deployment (proxy and upstream on different
host:port); the counterexample shows the extra hypothesis is necessary:
a Host header such as `my127.0.0.1:12222` re-introduces a match and a
second application rewrites again. -/
theorem claim_C8_amended (cfg : Cfg) (pH pP : String) (tabs : List Tab)
    (h : ∀ t ∈ rewriteTabs cfg pH pP tabs, ∀ kv ∈ t,
        matchFree cfg.chromeHost.data (portTag cfg) kv.2.data = true) :
    rewriteTabs cfg pH pP (rewriteTabs cfg pH pP tabs) =
      rewriteTabs cfg pH pP tabs := by
  have hfix : ∀ t' ∈ rewriteTabs cfg pH pP tabs, rewriteTab cfg pH pP t' = t' := by
    intro t' ht'
    have hvals := h t' ht'
    have hsynth : tabGet "id" t' = none ∨
        ((tabGet "webSocketDebuggerUrl" t').isSome ∧
          (tabGet "devtoolsFrontendUrl" t').isSome) := by
      unfold rewriteTabs at ht'
      rcases List.mem_map.mp ht' with ⟨t0, _, rfl⟩
      exact synthTab_synth pH pP _
    unfold rewriteTab
    rw [map_subValue_eq cfg pH pP t' hvals]
    exact synthTab_id_of pH pP t' hsynth
  unfold rewriteTabs
  unfold rewriteTabs at hfix
  exact map_fix _ _ hfix

/-- Witness for C8 (amended): default upstream `127.0.0.1:12222`, Host
header `example:9222`; the rewritten array is pattern-free, so a second
application changes nothing. -/
theorem claim_C8_witness :
    (∀ t ∈ rewriteTabs ⟨"127.0.0.1", 12222⟩ "example" "9222"
        [[("id", "A"),
          ("webSocketDebuggerUrl", "ws://127.0.0.1:12222/devtools/page/A")]],
        ∀ kv ∈ t, matchFree ("127.0.0.1" : String).data
          (portTag ⟨"127.0.0.1", 12222⟩) kv.2.data = true)
    ∧ rewriteTabs ⟨"127.0.0.1", 12222⟩ "example" "9222"
        (rewriteTabs ⟨"127.0.0.1", 12222⟩ "example" "9222"
          [[("id", "A"),
            ("webSocketDebuggerUrl", "ws://127.0.0.1:12222/devtools/page/A")]])
      = rewriteTabs ⟨"127.0.0.1", 12222⟩ "example" "9222"
          [[("id", "A"),
            ("webSocketDebuggerUrl", "ws://127.0.0.1:12222/devtools/page/A")]] :=
  ⟨by decide,
    claim_C8_amended ⟨"127.0.0.1", 12222⟩ "example" "9222"
      [[("id", "A"),
        ("webSocketDebuggerUrl", "ws://127.0.0.1:12222/devtools/page/A")]]
      (by decide)⟩
